import Mathlib

/-!
Verification of the bookemoji Vite plugin (src: the plugin module of
vite-plugin-bookemoji). The development shallowly embeds the plugin:

* the fixed virtual-module specifier and its internal resolved id;
* the glob normalization performed in the load hook
  (path.posix.normalize followed by escaping of parentheses);
* the configResolved state machine that loads the optional
  svelte.config.js and records the active glob pattern and base path;
* the resolveId and load hooks;
* createExportStatements, the module synthesizer, together with a
  character-level reader of the generated story entries and a model of
  the runtime behavior of the generated loadStories function.

External I/O (file existence, dynamic import, directory globbing, the
settling of dynamic imports) is passed in as explicit outcome values,
so every hook becomes a pure function of its inputs.  Logging is
modelled as the list of emitted (level, message) pairs; colors and the
pretty-printing of interpolated objects are elided.
-/

namespace BookEmoji

/-- Character code 34, the double-quote character. -/
def qc : Char := Char.ofNat 34

/-- Character code 39, the single-quote character. -/
def sqc : Char := Char.ofNat 39

/-- Character code 92, the backslash character. -/
def bslash : Char := Char.ofNat 92

/-- The single-quote character as a one-character string. -/
def singleQuote : String := "\x27"

/-- Source: `const virtualModuleId: string = "virtual:bookemoji" as const;`. -/
def virtualModuleId : String := "virtual:bookemoji"

/-- Source: `const resolvedVirtualModuleId: string = "\0" + virtualModuleId;`. -/
def resolvedVirtualModuleId : String := "\x00" ++ virtualModuleId

/-! ## Glob normalizer

The load hook computes
`path.posix.normalize(userGlobPattern).replaceAll("(", "\\(").replaceAll(")", "\\)")`.
We model Node path.posix.normalize segment-wise (split on slash, drop
empty and dot segments, resolve dot-dot segments, keep leading slash of
absolute paths and a trailing slash, return "." for an empty relative
result), which is the documented semantics of the Node implementation.
The two replaceAll calls have single-character search strings whose
replacements introduce no further parenthesis, so their composition is
the character-wise map escChar.
-/

/-- Split a character list on a separator character.  Models
JavaScript String.prototype.split with a one-character separator, as
used on the slash-separated segments of a path. -/
def splitOnChar (c : Char) : List Char → List (List Char)
  | [] => [[]]
  | x :: xs =>
    let r := splitOnChar c xs
    if x = c then [] :: r
    else
      match r with
      | [] => [[x]]
      | h :: t => (x :: h) :: t

/-- One step of Node path normalization over a stack of already
accepted segments (held in reverse order).  Empty and `.` segments are
dropped; a `..` segment pops the previous segment, except that in a
relative path (`allowAbove = true`) leading `..` segments are kept. -/
def normStepC (allowAbove : Bool) (acc : List (List Char)) (seg : List Char) :
    List (List Char) :=
  if seg = [] ∨ seg = ['.'] then acc
  else if seg = ['.', '.'] then
    match acc with
    | [] => if allowAbove then [['.', '.']] else []
    | t :: ts => if t = ['.', '.'] then seg :: acc else ts
  else seg :: acc

/-- Join segments with slashes (inverse of `splitOnChar` on slash). -/
def joinSlash : List (List Char) → List Char
  | [] => []
  | [s] => s
  | s :: t :: rest => s ++ '/' :: joinSlash (t :: rest)

/-- Model of Node `path.posix.normalize`. -/
def posixNormalize (p : String) : String :=
  match p.data with
  | [] => "."
  | c :: _ =>
    let cs := p.data
    let isAbs := c == '/'
    let trail := cs.getLast? == some '/'
    let core := joinSlash (((splitOnChar '/' cs).foldl (normStepC (!isAbs)) []).reverse)
    if core = [] then
      (if isAbs then "/" else if trail then "./" else ".")
    else
      String.mk ((if isAbs then ['/'] else []) ++ core ++ (if trail then ['/'] else []))

/-- The map `escChar` sends each literal parenthesis to a backslash followed by
that parenthesis and leaves every other character unchanged. -/
def escChar (c : Char) : List Char :=
  if c = '(' || c = ')' then [bslash, c] else [c]

/-- The composed effect of
`.replaceAll("(", "\\(").replaceAll(")", "\\)")` in the load hook:
since both search strings are single characters and the first
replacement introduces no `)` while the second introduces no `(`, the
composition equals this character-wise map. -/
def escapeParens (s : String) : String :=
  String.mk (List.flatten (s.data.map escChar))

/-- The pattern the load hook hands to the glob matcher:
`const glob = path.posix.normalize(userGlobPattern).replaceAll("(", "\\(").replaceAll(")", "\\)");`. -/
def globOf (pattern : String) : String :=
  escapeParens (posixNormalize pattern)

/-! ## Module synthesizer

`createExportStatements(base, files)` assembles the source text of the
virtual module from three blocks.  The JavaScript template literals are
transcribed one to one; `\x7b` and `\x7d` denote the literal brace
characters of the generated JavaScript. -/

/-- One entry of the `stories` object literal.  Source:
`files.map((file) => ...)` producing, for each file,
the text `"FILE": import(/* @vite-ignore */ \x27FILE\x27), `. -/
def storyEntry (file : String) : String :=
  "\"" ++ file ++ "\": import(/* @vite-ignore */ " ++ singleQuote ++ file ++ singleQuote ++ "), "

/-- One entry of the `map` object inside the generated `loadStories`:
`files.map((a) => ...)` producing `"A": import("A")`. -/
def mapEntry (a : String) : String :=
  "\"" ++ a ++ "\": import(\"" ++ a ++ "\")"

/-- One entry of the `record` object inside the generated
`loadStories`: `files.map((a) => ...)` producing `"A": null`. -/
def recordEntry (a : String) : String :=
  "\"" ++ a ++ "\": null"

/-- The `_base` local of createExportStatements. -/
def baseBlock (base : String) : String :=
  "export const base = \"" ++ base ++ "\";"

/-- The `_stories` local of createExportStatements. -/
def storiesBlock (files : List String) : String :=
  "export const stories = \x7b\n  " ++
  String.intercalate "\n" (files.map storyEntry) ++
  "\n  \x7d;"

/-- The `_loadStories` local of createExportStatements. -/
def loadStoriesBlock (files : List String) : String :=
  "export const loadStories = async () => \x7b\n    \n    // this map lets our imports be statically analyzed\n    const map = \x7b\n      " ++
  String.intercalate ",\n" (files.map mapEntry) ++
  "\n    \x7d;\n\n    const record = \x7b\n      " ++
  String.intercalate ",\n" (files.map recordEntry) ++
  "\n    \x7d;\n\n    const loadPromises = Array.from(Object.entries(map)).map(([key, loader]) => \x7b\n      return loader.then((mod) => \x7b\n        record[key] = mod.default ?? mod;\n      \x7d);\n    \x7d);\n    \n    await Promise.allSettled(loadPromises);\n\n    return record;\n  \x7d;"

/-- Source function `createExportStatements(base, files)`. -/
def createExportStatements (base : String) (files : List String) : String :=
  "\n  " ++ baseBlock base ++ "\n  " ++ storiesBlock files ++ "\n  " ++
  loadStoriesBlock files ++ "\n  "

/-! ## Reading back the generated story entries

To state that the `stories` object of the generated text has exactly
the input paths as its quoted keys, we read one generated entry back
with a character-level scanner for the shape
`"KEY": import(/* @vite-ignore */ \x27TARGET\x27), `.
The scanner performs no JavaScript escape processing, so it agrees
with the JavaScript reading of the entry exactly on keys and targets
that are free of double quotes, single quotes and backslashes. -/

/-- Take characters until the first occurrence of `c`; return the
part before `c` and the part after it. -/
def takeUntil (c : Char) : List Char → Option (List Char × List Char)
  | [] => none
  | x :: xs =>
    if x = c then some ([], xs)
    else (takeUntil c xs).map (fun p => (x :: p.1, p.2))

/-- Consume an expected literal character sequence. -/
def expectChars : List Char → List Char → Option (List Char)
  | [], cs => some cs
  | _ :: _, [] => none
  | p :: ps, c :: cs => if c = p then expectChars ps cs else none

/-- The literal text between the closing quote of the key and the
opening quote of the import target. -/
def midCore : List Char := (": import(/* @vite-ignore */ ").data

/-- The literal text after the closing quote of the import target. -/
def entryTail : List Char := ("), ").data

/-- The text `midCore` followed by the opening single quote of the target. -/
def importMid : List Char := midCore ++ [sqc]

/-- Scan one story entry, returning its quoted key and the target of
its dynamic-import expression. -/
def parseEntryChars (cs : List Char) : Option (List Char × List Char) :=
  match cs with
  | [] => none
  | c :: rest =>
    if c = qc then
      match takeUntil qc rest with
      | none => none
      | some (key, rest1) =>
        match expectChars importMid rest1 with
        | none => none
        | some rest2 =>
          match takeUntil sqc rest2 with
          | none => none
          | some (target, rest3) =>
            if rest3 = entryTail then some (key, target) else none
    else none

/-- String-level wrapper of `parseEntryChars`. -/
def parseStoryEntry (s : String) : Option (String × String) :=
  (parseEntryChars s.data).map (fun p => (String.mk p.1, String.mk p.2))

/-! ## Runtime model of the generated loadStories function

The generated function builds an object `map` with one
`import("PATH")` per path, an object `record` with a `null` per path,
chains each import with `record[key] = mod.default ?? mod`, awaits
`Promise.allSettled(loadPromises)` and returns `record`.

JavaScript values are modelled by `JSVal`: `null`, `undefined`, a
string, or an object identified by a tag.  A module namespace object
is given by the identity tag of the namespace object itself together
with the value of its `default` binding (absent when the module has no
default export; reading an absent property of a namespace object
yields `undefined`).  The outcome of `import(p)` is a function of the
path `p` alone, because repeated dynamic imports of one specifier
yield the same module promise.  Object literals with duplicate keys
keep the first position and the last value, which `objInsert`
reproduces; `Object.entries` enumerates each distinct key once, which
`dedupKeys` reproduces.  `Promise.allSettled` waits for every member,
so the final `record` is the result of applying every settled
assignment; assignments for distinct keys commute, so they are applied
in key order. -/

/-- A JavaScript value. -/
inductive JSVal where
  | null : JSVal
  | undef : JSVal
  | str : String → JSVal
  | obj : String → JSVal
deriving DecidableEq

/-- The outcome of `import(p)` for one path: the promise either
rejects, or resolves to a module namespace object with identity
`namespaceId` and `defaultExport` as the value of its `default`
binding (`none` when the module has no default export). -/
inductive ImportOutcome where
  | rejected : String → ImportOutcome
  | resolved : Option JSVal → String → ImportOutcome

/-- JavaScript nullishness: exactly `null` and `undefined`. -/
def jsNullish : JSVal → Bool
  | .null => true
  | .undef => true
  | _ => false

/-- The value stored by `record[key] = mod.default ?? mod` for a
module with default binding `d` and namespace identity `ns`:
`mod.default` is `d` when present and `undefined` otherwise, and
`?? mod` replaces a nullish left operand by the namespace object. -/
def settledValue (d : Option JSVal) (ns : String) : JSVal :=
  let dflt := d.getD JSVal.undef
  if jsNullish dflt then JSVal.obj ns else dflt

/-- The value found in the returned record for one path: the `null`
placeholder survives a rejected import, and a fulfilled import stores
`mod.default ?? mod`. -/
def finalValue : ImportOutcome → JSVal
  | .rejected _ => JSVal.null
  | .resolved d ns => settledValue d ns

/-- Property write on an object: update in place when the key is
present, append otherwise (JavaScript object semantics). -/
def objInsert (k : String) (v : JSVal) : List (String × JSVal) → List (String × JSVal)
  | [] => [(k, v)]
  | (k0, v0) :: rest =>
    if k0 = k then (k0, v) :: rest else (k0, v0) :: objInsert k v rest

/-- Property read on an object. -/
def lookupRecord (k : String) : List (String × JSVal) → Option JSVal
  | [] => none
  | (k0, v) :: rest => if k0 = k then some v else lookupRecord k rest

/-- The `record` object literal `\x7b "A": null, ... \x7d`. -/
def initRecord (files : List String) : List (String × JSVal) :=
  files.foldl (fun acc f => objInsert f JSVal.null acc) []

/-- First-occurrence deduplication, parameterized by the keys already
seen. -/
def dedupAux (seen : List String) : List String → List String
  | [] => []
  | f :: fs => if f ∈ seen then dedupAux seen fs else f :: dedupAux (f :: seen) fs

/-- The distinct keys of the `map` object literal in first-occurrence
order, as enumerated by `Object.entries`. -/
def dedupKeys (files : List String) : List String := dedupAux [] files

/-- Apply the settled assignment of one entry of `map` to `record`:
a rejected import leaves the record unchanged, a fulfilled one stores
`mod.default ?? mod` under the key. -/
def applySettle (outcome : String → ImportOutcome) (rec : List (String × JSVal))
    (k : String) : List (String × JSVal) :=
  match outcome k with
  | .rejected _ => rec
  | .resolved d ns => objInsert k (settledValue d ns) rec

/-- The record returned by the generated `loadStories`, given the
outcome of the import of every path.  The function is total: the generated
code awaits `Promise.allSettled`, which never rejects, so `loadStories`
always resolves to this record. -/
def loadStoriesResult (outcome : String → ImportOutcome) (files : List String) :
    List (String × JSVal) :=
  (dedupKeys files).foldl (applySettle outcome) (initRecord files)

/-! ## Configuration resolver and plugin shell

The plugin closure holds `bookEmojiConfig`, `userGlobPattern` and
`projectRoot`; they form `PluginState`.  The log output is the list of
emitted (level, message) pairs; `emit` reproduces the `log` helper,
which drops debug messages unless `options.debug === true`.  Colors,
the command-dependent wording of the `config found` info line, and the
pretty-printing of interpolated error objects are elided from the
messages. -/

/-- The levels of the `log` helper. -/
inductive LogLevel where
  | info : LogLevel
  | error : LogLevel
  | warn : LogLevel
  | debug : LogLevel
deriving DecidableEq

/-- One emitted console line. -/
abbrev LogEntry := LogLevel × String

/-- The `log` helper: debug lines appear only when the plugin was
constructed with `debug: true`; all other levels always print. -/
def emit (debugOpt : Bool) (lvl : LogLevel) (msg : String) : List LogEntry :=
  if lvl = LogLevel.debug ∧ debugOpt = false then [] else [(lvl, msg)]

/-- The `bookemoji` sub-configuration of the svelte config default
export: `\x7b base?: string, stories?: string \x7d`. -/
structure BookEmojiConfig where
  base : Option String
  stories : Option String
deriving DecidableEq

/-- The default export of svelte.config.js, as far as the plugin
inspects it: it may or may not carry a `bookemoji` property. -/
structure SvelteConfigDefault where
  bookemoji : Option BookEmojiConfig
deriving DecidableEq

/-- The outcome of the config-file I/O in configResolved:
`fs.access` throws ENOENT, the access or dynamic import throws some
other error, or the import succeeds and yields a module whose default
export is `defaultExport` (`none` when the module has no truthy
default export). -/
inductive ConfigLoadResult where
  | enoent : ConfigLoadResult
  | otherError : String → ConfigLoadResult
  | loaded : Option SvelteConfigDefault → ConfigLoadResult

/-- The mutable closure state of the plugin. -/
structure PluginState where
  bookEmojiConfig : Option BookEmojiConfig
  userGlobPattern : String
  projectRoot : Option String
deriving DecidableEq

/-- Source line 65: the built-in default glob pattern. -/
def defaultStoriesGlob : String := "./books/stories/**/*.book.svelte"

/-- The closure state at plugin construction: no bookemoji config, the
default glob pattern, no project root recorded yet. -/
def initialState : PluginState :=
  { bookEmojiConfig := none
    userGlobPattern := defaultStoriesGlob
    projectRoot := none }

/-- The base path the load hook passes to createExportStatements:
`bookEmojiConfig?.base ?? ""`. -/
def activeBase (st : PluginState) : String :=
  (st.bookEmojiConfig.bind (fun c => c.base)).getD ""

/-- The configResolved hook.  It records the project root, then
attempts `fs.access` and a dynamic import of
`PROJECTROOT/svelte.config.js`; `res` is the outcome of that I/O.
When the import yields a truthy default export, the code runs
`bookEmojiConfig = svelteConfig.default?.bookemoji;`
`userGlobPattern = bookEmojiConfig?.stories ?? "";` and then warns
when `bookEmojiConfig` is falsy, or when `userGlobPattern === ""`.
ENOENT logs at error level; any other exception logs at warn level. -/
def configResolved (debugOpt : Bool) (root : String) (st : PluginState)
    (res : ConfigLoadResult) : PluginState × List LogEntry :=
  let st1 : PluginState := { st with projectRoot := some root }
  let configFilePath := root ++ "/svelte.config.js"
  let pre : List LogEntry :=
    emit debugOpt LogLevel.debug ("projectRoot " ++ root) ++
    emit debugOpt LogLevel.debug ("Attempting import of configFilePath: " ++ configFilePath)
  match res with
  | ConfigLoadResult.enoent =>
      (st1, pre ++ emit debugOpt LogLevel.error "svelte.config.js not found.")
  | ConfigLoadResult.otherError _ =>
      (st1, pre ++
        emit debugOpt LogLevel.debug ("Importing configFilePath: " ++ configFilePath) ++
        emit debugOpt LogLevel.warn "An unknown error when trying to load config:")
  | ConfigLoadResult.loaded defaultExport =>
      let st2 : PluginState :=
        match defaultExport with
        | some d =>
            { st1 with
              bookEmojiConfig := d.bookemoji
              userGlobPattern := (d.bookemoji.bind (fun c => c.stories)).getD "" }
        | none => st1
      let foundLogs : List LogEntry :=
        match defaultExport with
        | some _ => emit debugOpt LogLevel.info ("config found — " ++ st2.userGlobPattern)
        | none => []
      let warnLogs : List LogEntry :=
        if st2.bookEmojiConfig.isNone then
          emit debugOpt LogLevel.warn "bookemoji not found in svelte.config.js"
        else if st2.userGlobPattern = "" then
          emit debugOpt LogLevel.warn
            ("svelte.config.js\x27s \"bookemoji\" does not contain a valid \"stories\" value")
        else []
      (st2, pre ++
        emit debugOpt LogLevel.debug ("Importing configFilePath: " ++ configFilePath) ++
        foundLogs ++ warnLogs)

/-- The resolveId hook: the fixed virtual specifier maps to the
internal resolved id, everything else returns null (not handled). -/
def resolveId (source : String) : Option String :=
  if source = virtualModuleId then some resolvedVirtualModuleId else none

/-- One match of the fast-glob call in object mode: a file name for
logging and a root-relative path. -/
structure FileEntry where
  name : String
  path : String

/-- The outcome of the fast-glob call inside the load hook: a list of
matches, or a thrown I/O error. -/
inductive GlobOutcome where
  | ok : List FileEntry → GlobOutcome
  | ioError : String → GlobOutcome

/-- JavaScript falsiness of the `projectRoot` closure variable: it is
falsy while still `undefined` and also when it equals the empty
string. -/
def jsFalsyStr : Option String → Bool
  | none => true
  | some s => s == ""

/-- The load hook.  For any id other than the internal resolved id it
returns null.  For the internal id it returns synthesized module text:
from an empty file list when `projectRoot` is not yet set, from the
glob matches when globbing succeeds, and again from an empty file list
when globbing throws (the try/catch at the load boundary); the hook
itself never throws.  `globResult` is the outcome of the fast-glob
call on `globOf userGlobPattern`; `isBuild` tells whether
`config.command === "build"`. -/
def load (debugOpt : Bool) (isBuild : Bool) (st : PluginState) (id : String)
    (globResult : GlobOutcome) : Option String × List LogEntry :=
  if id = resolvedVirtualModuleId then
    if jsFalsyStr st.projectRoot then
      (some (createExportStatements (activeBase st) []),
       emit debugOpt LogLevel.error
         "projectRoot not set. \"configResolved\" might not have run yet. Returning empty array.")
    else
      let glob := globOf st.userGlobPattern
      let pre : List LogEntry :=
        emit debugOpt LogLevel.debug
          ("full search path: " ++ posixNormalize st.userGlobPattern) ++
        (if st.userGlobPattern.data.contains '(' || st.userGlobPattern.data.contains ')' then
          emit debugOpt LogLevel.debug
            ("escaping parenthesis in \"" ++ st.userGlobPattern ++ "\" for globbing")
         else []) ++
        emit debugOpt LogLevel.debug
          ("Searching for files with pattern \"" ++ glob ++ "\" relative to \"" ++
           st.projectRoot.getD "" ++ "\"") ++
        emit debugOpt LogLevel.debug ("Original: " ++ st.userGlobPattern)
      match globResult with
      | GlobOutcome.ok files =>
          (some (createExportStatements (activeBase st)
                  (files.map (fun f => "./" ++ f.path))),
           pre ++ (if isBuild then emit debugOpt LogLevel.info "" else []) ++
           emit debugOpt LogLevel.info
             ("Found " ++ toString files.length ++ " " ++
              (if files.length = 1 then "story" else "stories")) ++
           files.flatMap (fun f => emit debugOpt LogLevel.debug ("- " ++ f.name)))
      | GlobOutcome.ioError _ =>
          (some (createExportStatements (activeBase st) []),
           pre ++ [(LogLevel.error, "Error globbing files:")])
  else (none, [])

/-- An import-outcome assignment in which every path resolves to a
module whose default export is the value null (as produced by a story
file containing `export default null`). -/
def nullDefaultOutcome : String → ImportOutcome :=
  fun _ => ImportOutcome.resolved (some JSVal.null) "storyModule"

/-- A mixed import-outcome assignment: one path resolves with a
non-nullish default export, one resolves without any default export,
and every other path rejects. -/
def mixedOutcome : String → ImportOutcome := fun s =>
  if s = "ok.svelte" then ImportOutcome.resolved (some (JSVal.str "cmp")) "okns"
  else if s = "plain.svelte" then ImportOutcome.resolved none "plainns"
  else ImportOutcome.rejected "failed to fetch"

/-! ## Helper lemmas -/

theorem strData_append (a b : String) : (a ++ b).data = a.data ++ b.data := by
  rcases a with ⟨da⟩; rcases b with ⟨db⟩; rfl

theorem strAppend_assoc (a b c : String) : (a ++ b) ++ c = a ++ (b ++ c) := by
  rcases a with ⟨da⟩; rcases b with ⟨db⟩; rcases c with ⟨dc⟩
  show String.mk ((da ++ db) ++ dc) = String.mk (da ++ (db ++ dc))
  rw [List.append_assoc]

theorem data_quote : ("\"" : String).data = [qc] := by decide

theorem data_keyClose : ("\": import(/* @vite-ignore */ " : String).data = qc :: midCore := by
  decide

theorem data_singleQuote : singleQuote.data = [sqc] := by decide

theorem data_entryTail : ("), " : String).data = entryTail := by decide

theorem takeUntil_append (c : Char) (l r : List Char) (h : c ∉ l) :
    takeUntil c (l ++ c :: r) = some (l, r) := by
  induction l with
  | nil => simp [takeUntil]
  | cons x xs ih =>
    have hx : x ≠ c := fun e => h (e ▸ List.mem_cons_self x xs)
    have hxs : c ∉ xs := fun hc => h (List.mem_cons_of_mem x hc)
    simp [takeUntil, hx, ih hxs]

theorem expectChars_append (p r : List Char) : expectChars p (p ++ r) = some r := by
  induction p with
  | nil => rfl
  | cons x xs ih => simp [expectChars, ih]

theorem parseEntry_round (key target : List Char) (hk : qc ∉ key) (ht : sqc ∉ target) :
    parseEntryChars (qc :: (key ++ qc :: (midCore ++ (sqc :: (target ++ sqc :: entryTail)))))
      = some (key, target) := by
  have h1 : takeUntil qc (key ++ qc :: (midCore ++ (sqc :: (target ++ sqc :: entryTail))))
      = some (key, midCore ++ (sqc :: (target ++ sqc :: entryTail))) :=
    takeUntil_append qc key _ hk
  have h2 : expectChars importMid (midCore ++ (sqc :: (target ++ sqc :: entryTail)))
      = some (target ++ sqc :: entryTail) := by
    have h := expectChars_append importMid (target ++ sqc :: entryTail)
    simpa [importMid, List.append_assoc] using h
  have h3 : takeUntil sqc (target ++ sqc :: entryTail) = some (target, entryTail) :=
    takeUntil_append sqc target _ ht
  simp [parseEntryChars, h1, h2, h3]

theorem parse_storyEntry (f : String) (hq : qc ∉ f.data) (hs : sqc ∉ f.data) :
    parseStoryEntry (storyEntry f) = some (f, f) := by
  have hdata : (storyEntry f).data
      = qc :: (f.data ++ qc :: (midCore ++ (sqc :: (f.data ++ sqc :: entryTail)))) := by
    simp [storyEntry, strData_append, qc, sqc, midCore, entryTail, singleQuote,
      List.append_assoc]
  unfold parseStoryEntry
  rw [hdata, parseEntry_round f.data f.data hq hs]
  rfl

theorem filterMap_keys (files : List String)
    (h : ∀ f ∈ files, parseStoryEntry (storyEntry f) = some (f, f)) :
    ((files.map storyEntry).filterMap parseStoryEntry).map Prod.fst = files := by
  induction files with
  | nil => rfl
  | cons f fs ih =>
    have hf := h f (List.mem_cons_self f fs)
    simp only [List.map_cons, List.filterMap_cons, hf]
    simpa using ih (fun g hg => h g (List.mem_cons_of_mem f hg))

theorem lookup_objInsert_self (k : String) (v : JSVal) (l : List (String × JSVal)) :
    lookupRecord k (objInsert k v l) = some v := by
  induction l with
  | nil => simp [objInsert, lookupRecord]
  | cons e rest ih =>
    rcases e with ⟨k0, v0⟩
    by_cases h : k0 = k
    · simp [objInsert, lookupRecord, h]
    · simp [objInsert, lookupRecord, h, ih]

theorem lookup_objInsert_ne (k k' : String) (v : JSVal) (l : List (String × JSVal))
    (h : k' ≠ k) : lookupRecord k' (objInsert k v l) = lookupRecord k' l := by
  have hk : k ≠ k' := Ne.symm h
  induction l with
  | nil => simp [objInsert, lookupRecord, hk]
  | cons e rest ih =>
    rcases e with ⟨k0, v0⟩
    by_cases h0 : k0 = k
    · simp [objInsert, lookupRecord, h0, hk]
    · simp [objInsert, lookupRecord, h0, ih]

theorem lookup_initFold (p : String) :
    ∀ (files : List String) (acc : List (String × JSVal)),
      (p ∈ files ∨ lookupRecord p acc = some JSVal.null) →
      lookupRecord p (files.foldl (fun a f => objInsert f JSVal.null a) acc)
        = some JSVal.null := by
  intro files
  induction files with
  | nil =>
    intro acc h
    rcases h with h | h
    · cases h
    · simpa using h
  | cons f fs ih =>
    intro acc h
    simp only [List.foldl_cons]
    by_cases hpf : p = f
    · subst hpf
      exact ih _ (Or.inr (lookup_objInsert_self p JSVal.null acc))
    · rcases h with h | h
      · rcases List.mem_cons.mp h with h1 | h1
        · exact absurd h1 hpf
        · exact ih _ (Or.inl h1)
      · refine ih _ (Or.inr ?_)
        rw [lookup_objInsert_ne f p JSVal.null acc hpf]
        exact h

theorem lookup_foldSettle_ne (outcome : String → ImportOutcome) (p : String) :
    ∀ (ks : List String) (acc : List (String × JSVal)), (∀ k ∈ ks, k ≠ p) →
      lookupRecord p (ks.foldl (applySettle outcome) acc) = lookupRecord p acc := by
  intro ks
  induction ks with
  | nil => intro acc _; rfl
  | cons k ks ih =>
    intro acc h
    simp only [List.foldl_cons]
    rw [ih _ (fun x hx => h x (List.mem_cons_of_mem k hx))]
    cases houtcome : outcome k with
    | rejected r => simp [applySettle, houtcome]
    | resolved d ns =>
      simp only [applySettle, houtcome]
      exact lookup_objInsert_ne k p _ acc (Ne.symm (h k (List.mem_cons_self k ks)))

theorem lookup_foldSettle (outcome : String → ImportOutcome) (p : String) :
    ∀ (ks : List String) (acc : List (String × JSVal)), ks.Nodup → p ∈ ks →
      lookupRecord p acc = some JSVal.null →
      lookupRecord p (ks.foldl (applySettle outcome) acc)
        = some (finalValue (outcome p)) := by
  intro ks
  induction ks with
  | nil => intro acc _ hmem _; cases hmem
  | cons k ks ih =>
    intro acc hnd hmem hacc
    have hnd' := List.nodup_cons.mp hnd
    simp only [List.foldl_cons]
    by_cases hpk : p = k
    · subst hpk
      have hne : ∀ x ∈ ks, x ≠ p := fun x hx e => hnd'.1 (e ▸ hx)
      rw [lookup_foldSettle_ne outcome p ks _ hne]
      cases houtcome : outcome p with
      | rejected r => simp [applySettle, houtcome, hacc, finalValue]
      | resolved d ns => simp [applySettle, houtcome, finalValue, lookup_objInsert_self]
    · have hmem' : p ∈ ks := by
        rcases List.mem_cons.mp hmem with h1 | h1
        · exact absurd h1 hpk
        · exact h1
      refine ih _ hnd'.2 hmem' ?_
      cases houtcome : outcome k with
      | rejected r => simpa [applySettle, houtcome] using hacc
      | resolved d ns =>
        simp only [applySettle, houtcome]
        rw [lookup_objInsert_ne k p _ acc hpk]
        exact hacc

theorem mem_dedupAux (p : String) :
    ∀ (l seen : List String), p ∈ dedupAux seen l ↔ (p ∈ l ∧ p ∉ seen) := by
  intro l
  induction l with
  | nil => intro seen; simp [dedupAux]
  | cons f fs ih =>
    intro seen
    by_cases hf : f ∈ seen
    · rw [dedupAux, if_pos hf, ih]
      constructor
      · rintro ⟨h1, h2⟩; exact ⟨List.mem_cons_of_mem f h1, h2⟩
      · rintro ⟨h1, h2⟩
        rcases List.mem_cons.mp h1 with h3 | h3
        · exact absurd (h3 ▸ hf) h2
        · exact ⟨h3, h2⟩
    · rw [dedupAux, if_neg hf]
      simp only [List.mem_cons, ih]
      constructor
      · rintro (h1 | ⟨h1, h2⟩)
        · exact ⟨Or.inl h1, by rw [h1]; exact hf⟩
        · exact ⟨Or.inr h1, fun h3 => h2 (Or.inr h3)⟩
      · rintro ⟨h1 | h1, h2⟩
        · exact Or.inl h1
        · by_cases hpf : p = f
          · exact Or.inl hpf
          · exact Or.inr ⟨h1, fun h3 => h3.elim hpf h2⟩

theorem nodup_dedupAux : ∀ (l seen : List String), (dedupAux seen l).Nodup := by
  intro l
  induction l with
  | nil => intro seen; simp [dedupAux]
  | cons f fs ih =>
    intro seen
    by_cases hf : f ∈ seen
    · rw [dedupAux, if_pos hf]; exact ih seen
    · rw [dedupAux, if_neg hf]
      refine List.nodup_cons.mpr ⟨?_, ih (f :: seen)⟩
      intro hmem
      exact ((mem_dedupAux f fs (f :: seen)).mp hmem).2 (List.mem_cons_self f seen)

/-! ## The claims -/

/-- C3: the glob normalizer of the load hook (posix normalization
followed by parenthesis escaping) is not idempotent: there is a
pattern containing a literal parenthesis, namely "(a)", on which
applying the normalization twice yields a different string than
applying it once. -/
theorem globNormalizer_not_idempotent :
    ∃ p : String, '(' ∈ p.data ∧ globOf (globOf p) ≠ globOf p := by
  refine ⟨"(a)", by decide, by decide⟩

/-- C2 counterexample: the pattern "./(a)" contains a literal
parenthesis, yet the pattern handed to the glob matcher is "\(a\)"
and not the input with each parenthesis escaped in place (which would
be "./\(a\)"): posix normalization also strips the leading "./"
segment, so characters other than the parentheses are altered. -/
theorem globOf_cex :
    '(' ∈ ("./(a)" : String).data ∧
    globOf "./(a)" = "\\(a\\)" ∧
    globOf "./(a)" ≠ escapeParens "./(a)" := by
  refine ⟨by decide, by decide, by decide⟩

/-- C2 (amended): the pattern handed to the glob matcher is the posix
normalization of the input with every literal parenthesis preceded by
a backslash; in particular, whenever the input pattern is already
posix-normal, the output is identical to the input except that every
parenthesis is preceded by a backslash and no other character is
altered (escapeParens maps each parenthesis to backslash-parenthesis
and every other character to itself). -/
theorem globOf_eq_escape_of_normalized (p : String) (h : posixNormalize p = p) :
    globOf p = escapeParens p := by
  rw [globOf, h]

theorem globOf_eq_escape_of_normalized_witness :
    posixNormalize "a(b)" = "a(b)" ∧ globOf "a(b)" = escapeParens "a(b)" :=
  ⟨by decide, globOf_eq_escape_of_normalized "a(b)" (by decide)⟩

/-- C1: with svelte.config.js exporting a default object whose
bookemoji sub-key is present but empty, configResolved records the
empty glob pattern and logs the claimed warning, but the load hook
then globs with the pattern "." (the posix normalization of the empty
string, matching everything under the root), not with the built-in
non-empty default pattern: no default is substituted before globbing,
contrary to the claim and to the source comment stating that the
default pattern will be used when the custom config defines none. -/
theorem emptyStories_globsDot :
    (configResolved false "/proj" initialState
        (ConfigLoadResult.loaded (some ⟨some ⟨none, none⟩⟩))).1.userGlobPattern = "" ∧
    (LogLevel.warn,
        "svelte.config.js\x27s \"bookemoji\" does not contain a valid \"stories\" value")
      ∈ (configResolved false "/proj" initialState
          (ConfigLoadResult.loaded (some ⟨some ⟨none, none⟩⟩))).2 ∧
    globOf (configResolved false "/proj" initialState
        (ConfigLoadResult.loaded (some ⟨some ⟨none, none⟩⟩))).1.userGlobPattern = "." ∧
    globOf (configResolved false "/proj" initialState
        (ConfigLoadResult.loaded (some ⟨some ⟨none, none⟩⟩))).1.userGlobPattern ≠ "" ∧
    globOf (configResolved false "/proj" initialState
        (ConfigLoadResult.loaded (some ⟨some ⟨none, none⟩⟩))).1.userGlobPattern
      ≠ globOf defaultStoriesGlob := by
  refine ⟨by decide, by decide, by decide, by decide, by decide⟩

/-- C9: when no svelte.config.js exists at the project root (the
access check throws ENOENT), configResolved returns normally with the
active glob pattern equal to the built-in default
"./books/stories/**/*.book.svelte" and the active base path equal to
the empty string, the error-level line "svelte.config.js not found."
is logged, and nothing is logged at warn level. -/
theorem configResolved_enoent_defaults (debugOpt : Bool) (root : String) :
    (configResolved debugOpt root initialState ConfigLoadResult.enoent).1.userGlobPattern
      = "./books/stories/**/*.book.svelte" ∧
    activeBase (configResolved debugOpt root initialState ConfigLoadResult.enoent).1 = "" ∧
    (LogLevel.error, "svelte.config.js not found.")
      ∈ (configResolved debugOpt root initialState ConfigLoadResult.enoent).2 ∧
    ∀ m : String, (LogLevel.warn, m)
      ∉ (configResolved debugOpt root initialState ConfigLoadResult.enoent).2 := by
  cases debugOpt <;>
    simp [configResolved, emit, initialState, activeBase, defaultStoriesGlob]

theorem configResolved_enoent_defaults_witness :
    (LogLevel.error, "svelte.config.js not found.")
      ∈ (configResolved false "/p" initialState ConfigLoadResult.enoent).2 ∧
    (LogLevel.warn, "anything")
      ∉ (configResolved false "/p" initialState ConfigLoadResult.enoent).2 :=
  ⟨(configResolved_enoent_defaults false "/p").2.2.1,
   (configResolved_enoent_defaults false "/p").2.2.2 "anything"⟩

/-- C7: resolveId returns the internal resolved id exactly when its
input is the fixed virtual specifier "virtual:bookemoji", and returns
null (not handled) for every other input string, so the internal id is
never returned for any other input. -/
theorem resolveId_spec (source : String) :
    (resolveId source = some resolvedVirtualModuleId ↔ source = virtualModuleId) ∧
    (source ≠ virtualModuleId → resolveId source = none) := by
  constructor
  · constructor
    · intro h
      by_cases hs : source = virtualModuleId
      · exact hs
      · simp [resolveId, hs] at h
    · intro hs
      simp [resolveId, hs]
  · intro hs
    simp [resolveId, hs]

theorem resolveId_spec_witness :
    resolveId "virtual:other" = none ∧
    resolveId virtualModuleId = some resolvedVirtualModuleId :=
  ⟨(resolveId_spec "virtual:other").2 (by decide),
   (resolveId_spec virtualModuleId).1.mpr rfl⟩

/-- C10: when the load hook receives the internal resolved id while
projectRoot is still unset, it neither throws (the hook is a total
function in the model, mirroring the early-return guard) nor returns
the not-handled null: it returns synthesized module text for the
empty file list using the configured-or-default base path. -/
theorem load_noRoot_empty_module (debugOpt isBuild : Bool) (st : PluginState)
    (g : GlobOutcome) (h : st.projectRoot = none) :
    (load debugOpt isBuild st resolvedVirtualModuleId g).1
      = some (createExportStatements (activeBase st) []) ∧
    (load debugOpt isBuild st resolvedVirtualModuleId g).1 ≠ none := by
  have hf : jsFalsyStr st.projectRoot = true := by rw [h]; rfl
  refine ⟨by simp [load, hf], by simp [load, hf]⟩

theorem load_noRoot_empty_module_witness :
    (load false false initialState resolvedVirtualModuleId
        (GlobOutcome.ok [⟨"a", "a.book.svelte"⟩])).1
      = some (createExportStatements (activeBase initialState) []) :=
  (load_noRoot_empty_module false false initialState
    (GlobOutcome.ok [⟨"a", "a.book.svelte"⟩]) rfl).1

/-- C8: if the fast-glob call inside the load hook throws an I/O
error, the try/catch at the load boundary still returns synthesized
module text built from the empty file set, the line
"Error globbing files:" is logged at error level, and the failure is
not propagated (the hook returns the text instead of rejecting). -/
theorem load_globError_degrades (debugOpt isBuild : Bool) (st : PluginState)
    (msg : String) (h : jsFalsyStr st.projectRoot = false) :
    (load debugOpt isBuild st resolvedVirtualModuleId (GlobOutcome.ioError msg)).1
      = some (createExportStatements (activeBase st) []) ∧
    (LogLevel.error, "Error globbing files:")
      ∈ (load debugOpt isBuild st resolvedVirtualModuleId (GlobOutcome.ioError msg)).2 := by
  refine ⟨by simp [load, h], by simp [load, h]⟩

theorem load_globError_degrades_witness :
    (load false false ⟨none, defaultStoriesGlob, some "/p"⟩ resolvedVirtualModuleId
        (GlobOutcome.ioError "EACCES")).1
      = some (createExportStatements
          (activeBase ⟨none, defaultStoriesGlob, some "/p"⟩) []) ∧
    (LogLevel.error, "Error globbing files:")
      ∈ (load false false ⟨none, defaultStoriesGlob, some "/p"⟩ resolvedVirtualModuleId
          (GlobOutcome.ioError "EACCES")).2 :=
  load_globError_degrades false false ⟨none, defaultStoriesGlob, some "/p"⟩ "EACCES" rfl

/-- C6: for the empty file-path list, the generated loadStories
resolves to the empty record under every import-outcome assignment,
and the synthesized module text is still well-formed with all three
exports present: the base constant, the stories object and the
loadStories function. -/
theorem empty_files_wellformed (base : String) (outcome : String → ImportOutcome) :
    loadStoriesResult outcome [] = [] ∧
    (∃ s t : String, createExportStatements base [] = s ++ "export const base = \"" ++ t) ∧
    (∃ s t : String, createExportStatements base [] = s ++ "export const stories" ++ t) ∧
    (∃ s t : String, createExportStatements base [] = s ++ "export const loadStories" ++ t) := by
  have hbase : baseBlock base = "export const base = \"" ++ (base ++ "\";") := by
    rw [baseBlock, strAppend_assoc]
  have hstories : storiesBlock ([] : List String)
      = "export const stories" ++ " = \x7b\n  \n  \x7d;" := by
    decide
  have hload : loadStoriesBlock ([] : List String)
      = "export const loadStories" ++ " = async () => \x7b\n    \n    // this map lets our imports be statically analyzed\n    const map = \x7b\n      \n    \x7d;\n\n    const record = \x7b\n      \n    \x7d;\n\n    const loadPromises = Array.from(Object.entries(map)).map(([key, loader]) => \x7b\n      return loader.then((mod) => \x7b\n        record[key] = mod.default ?? mod;\n      \x7d);\n    \x7d);\n    \n    await Promise.allSettled(loadPromises);\n\n    return record;\n  \x7d;" := by
    set_option maxRecDepth 10000 in decide
  refine ⟨rfl, ?_, ?_, ?_⟩
  · refine ⟨"\n  ", base ++ ("\";" ++ ("\n  " ++ (storiesBlock [] ++
      ("\n  " ++ (loadStoriesBlock [] ++ "\n  "))))), ?_⟩
    simp only [createExportStatements, hbase, strAppend_assoc]
  · refine ⟨"\n  " ++ baseBlock base ++ "\n  ",
      " = \x7b\n  \n  \x7d;" ++ ("\n  " ++ (loadStoriesBlock [] ++ "\n  ")), ?_⟩
    simp only [createExportStatements, hstories, strAppend_assoc]
  · refine ⟨"\n  " ++ baseBlock base ++ "\n  " ++ storiesBlock [] ++ "\n  ",
      " = async () => \x7b\n    \n    // this map lets our imports be statically analyzed\n    const map = \x7b\n      \n    \x7d;\n\n    const record = \x7b\n      \n    \x7d;\n\n    const loadPromises = Array.from(Object.entries(map)).map(([key, loader]) => \x7b\n      return loader.then((mod) => \x7b\n        record[key] = mod.default ?? mod;\n      \x7d);\n    \x7d);\n    \n    await Promise.allSettled(loadPromises);\n\n    return record;\n  \x7d;" ++ "\n  ", ?_⟩
    simp only [createExportStatements, hload, strAppend_assoc]

/-- C4 counterexample: for the duplicate-free path list whose single
path embeds a double quote, the quoted keys recoverable from the
generated stories entries are not the input paths: the embedded quote
closes the key early, the entry no longer has the key-import shape,
and the key set read back from the generated text differs from the
path list. -/
theorem storiesKeys_cex :
    (["a\"b"] : List String).Nodup ∧
    parseStoryEntry (storyEntry "a\"b") = none ∧
    (((["a\"b"] : List String).map storyEntry).filterMap parseStoryEntry).map Prod.fst
      ≠ ["a\"b"] := by
  refine ⟨by decide, by decide, by decide⟩

/-- C4 (amended): for every duplicate-free file-path list whose paths
contain no double quote, no single quote and no backslash (so that
the lexical reading of the generated string literals coincides with
the JavaScript reading), the quoted keys of the generated stories
entries are exactly the input paths in order — hence equal as a set —
and every entry maps its key to a dynamic-import expression targeting
exactly that path. -/
theorem storiesKeys_roundtrip (files : List String) (hnd : files.Nodup)
    (h : ∀ f ∈ files, qc ∉ f.data ∧ sqc ∉ f.data ∧ bslash ∉ f.data) :
    ((files.map storyEntry).filterMap parseStoryEntry).map Prod.fst = files ∧
    (((files.map storyEntry).filterMap parseStoryEntry).map Prod.fst).Nodup ∧
    ∀ f ∈ files, parseStoryEntry (storyEntry f) = some (f, f) := by
  have hpar : ∀ f ∈ files, parseStoryEntry (storyEntry f) = some (f, f) := fun f hf =>
    parse_storyEntry f (h f hf).1 (h f hf).2.1
  have hkeys := filterMap_keys files hpar
  exact ⟨hkeys, by rw [hkeys]; exact hnd, hpar⟩

theorem storiesKeys_roundtrip_witness :
    (((["a(b).book.svelte", "c.book.svelte"] : List String).map storyEntry).filterMap
        parseStoryEntry).map Prod.fst = ["a(b).book.svelte", "c.book.svelte"] :=
  (storiesKeys_roundtrip ["a(b).book.svelte", "c.book.svelte"] (by decide) (by decide)).1

/-- C5 counterexample: for the single path "p" whose import resolves
to a module whose default export is the value null, the generated
loadStories stores the whole module namespace object under "p" — the
nullish coalescing `mod.default ?? mod` cannot distinguish a null
default export from an absent one — while the claim requires the
default export itself (null) to be stored. -/
theorem loadStories_nullDefault_cex :
    lookupRecord "p" (loadStoriesResult nullDefaultOutcome ["p"])
      = some (JSVal.obj "storyModule") ∧
    JSVal.obj "storyModule" ≠ JSVal.null := by
  refine ⟨by decide, by decide⟩

/-- C5 (amended): for every file-path list and every per-path import
outcome assignment, the generated loadStories resolves (its model is
a total function of the settled outcomes) and the returned record
maps every path of the list to: null when its import rejected, and
otherwise to the value of `mod.default ?? mod`, i.e. the default
export when that value is non-nullish and the whole module namespace
object when the default export is absent or null or undefined. -/
theorem loadStories_value_spec (outcome : String → ImportOutcome) (files : List String)
    (p : String) (hp : p ∈ files) :
    lookupRecord p (loadStoriesResult outcome files) = some (finalValue (outcome p)) := by
  unfold loadStoriesResult
  refine lookup_foldSettle outcome p (dedupKeys files) (initRecord files)
    (nodup_dedupAux files []) ?_ ?_
  · rw [dedupKeys, mem_dedupAux]
    exact ⟨hp, by simp⟩
  · exact lookup_initFold p files [] (Or.inl hp)

theorem loadStories_value_spec_witness :
    lookupRecord "bad.svelte"
        (loadStoriesResult mixedOutcome ["ok.svelte", "plain.svelte", "bad.svelte"])
      = some JSVal.null ∧
    lookupRecord "ok.svelte"
        (loadStoriesResult mixedOutcome ["ok.svelte", "plain.svelte", "bad.svelte"])
      = some (JSVal.str "cmp") ∧
    lookupRecord "plain.svelte"
        (loadStoriesResult mixedOutcome ["ok.svelte", "plain.svelte", "bad.svelte"])
      = some (JSVal.obj "plainns") :=
  ⟨(loadStories_value_spec mixedOutcome ["ok.svelte", "plain.svelte", "bad.svelte"]
      "bad.svelte" (by decide)).trans (by decide),
   (loadStories_value_spec mixedOutcome ["ok.svelte", "plain.svelte", "bad.svelte"]
      "ok.svelte" (by decide)).trans (by decide),
   (loadStories_value_spec mixedOutcome ["ok.svelte", "plain.svelte", "bad.svelte"]
      "plain.svelte" (by decide)).trans (by decide)⟩

end BookEmoji
